import Mathlib

/-!
Shallow embedding of the OmniSpark creative-production pipeline
(src/services/geminiService.ts, src/components/StepProduction.tsx,
src/components/StepVisualizer.tsx, src/components/StepIdeation.tsx and the
App root component), covering the generation orchestration layer and the
lineage/history model, together with theorems settling the frozen claims.

Remote provider responses are modelled as explicit inputs (an `Option` of
the parsed payload, or a list of response parts), so every function below
is a pure function of the code's inputs plus the provider outcome.
-/

namespace OmniSpark

/-- `AppMode` from src/types.ts: `'video' | 'image' | 'pdp'`. -/
inductive AppMode where
  | video
  | image
  | pdp
deriving DecidableEq, Repr

/-- `ProductInfo` from src/types.ts. -/
structure ProductInfo where
  name : String
  description : String
  creativeDirection : String
  userImages : Option (List String)
deriving DecidableEq, Repr

/-- The shape of one element of the JSON array parsed in `generateConcepts`
(response schema: title/description/script/storyboard/visualPrompt required,
id optional; the caller overwrites lineage fields). -/
structure RawConcept where
  title : String
  description : String
  script : String
  storyboard : String
  visualPrompt : String
deriving DecidableEq, Repr

/-- `SceneConcept` from src/types.ts. -/
structure SceneConcept where
  id : String
  title : String
  description : String
  script : String
  storyboard : String
  visualPrompt : String
  productName : String
  creativeDirection : String
  createdAt : Nat
  mode : Option AppMode
deriving DecidableEq, Repr

/-- `ImageHistoryItem` from src/types.ts. -/
structure ImageHistoryItem where
  id : String
  base64 : String
  prompt : String
  productName : String
  creativeDirection : String
  conceptTitle : String
  conceptId : String
  createdAt : Nat
  mode : Option AppMode
deriving DecidableEq, Repr

/-- `VideoHistoryItem` from src/types.ts. -/
structure VideoHistoryItem where
  id : String
  uri : String
  blobUrl : String
  productName : String
  creativeDirection : String
  conceptTitle : String
  createdAt : Nat
  mode : Option AppMode
deriving DecidableEq, Repr

/-- `AssetType` from src/types.ts. -/
inductive AssetType where
  | concept
  | image
  | video
deriving DecidableEq, Repr

/-- The `meta` field of `LibraryAsset` from src/types.ts. -/
structure AssetMeta where
  title : Option String
  prompt : Option String
  mode : Option AppMode
  productName : Option String
  conceptTitle : Option String
deriving DecidableEq, Repr

/-- `LibraryAsset` from src/types.ts; `content` (typed `any` in the source)
is modelled as an opaque string payload. -/
structure LibraryAsset where
  id : String
  assetType : AssetType
  content : String
  timestamp : Nat
  meta : Option AssetMeta
deriving DecidableEq, Repr

/-- `AppConfig` from src/types.ts. -/
structure AppConfig where
  textModel : String
  textKey : String
  imageModel : String
  imageKey : String
  videoModel : String
  videoKey : String
deriving DecidableEq, Repr

/-! ## geminiService.ts -/

/-- `generateConcepts` (geminiService.ts:53-182), abstracted over the
provider outcome: `text` is `response.text` (`none` for an absent field and
`some ""` for the empty string, both falsy in the source's `if (!text)`),
and `parse` is `JSON.parse` against the response schema (`none` = throw). -/
def generateConcepts (text : Option String)
    (parse : String → Option (List RawConcept)) : Except String (List RawConcept) :=
  match text with
  | none => .error "No concepts generated"
  | some t =>
      if t = "" then .error "No concepts generated"
      else
        match parse t with
        | some cs => .ok cs
        | none => .error "SyntaxError: JSON.parse"

/-- The `for (const part of response.candidates?.[0]?.content?.parts || [])`
loop shared by `generateSceneImage` and `editSceneImage`: each response part
is modelled as `Option String` (its `inlineData` payload, if any), and the
loop returns the first part carrying inline data. -/
def firstInlineData (parts : List (Option String)) : Option String :=
  parts.findSome? id

/-- `generateSceneImage` (geminiService.ts:188-241), abstracted over the
provider response parts. -/
def generateSceneImage (parts : List (Option String)) : Except String String :=
  match firstInlineData parts with
  | some d => .ok ("data:image/png;base64," ++ d)
  | none => .error "No image generated"

/-- `editSceneImage` (geminiService.ts:246-304), abstracted over the
provider response parts. -/
def editSceneImage (parts : List (Option String)) : Except String String :=
  match firstInlineData parts with
  | some d => .ok ("data:image/png;base64," ++ d)
  | none => .error "Image editing failed"

/-- The `img.replace(/^data:image\x2f(png|jpeg|jpg);base64,/, "")` calls in
geminiService.ts: strip one leading data-URL header if present. -/
def stripDataHeader (s : String) : String :=
  if s.startsWith "data:image/png;base64," then s.drop 22
  else if s.startsWith "data:image/jpeg;base64," then s.drop 23
  else if s.startsWith "data:image/jpg;base64," then s.drop 22
  else s

/-- `const refsToUse = referenceImages.slice(0, 3)` (geminiService.ts:419). -/
def refsToUse (referenceImages : List String) : List String :=
  referenceImages.take 3

/-- The `referenceImagesPayload` array built in `generateStoryVideo`
(geminiService.ts:420-430): one payload entry per retained image, carrying
its stripped bytes. -/
def referenceImagesPayload (referenceImages : List String) : List String :=
  (refsToUse referenceImages).map stripDataHeader

/-- The final URI extraction of `generateStoryVideo` (geminiService.ts:451-454):
`videoUri` is `operation.response?.generatedVideos?.[0]?.video?.uri` of the
completed operation (`none` for absent, `some ""` falsy as in the source). -/
def generateStoryVideo (videoUri : Option String) : Except String String :=
  match videoUri with
  | none => .error "Video generation failed"
  | some u => if u = "" then .error "Video generation failed" else .ok u

/-! ## generateStoryboardShots (geminiService.ts:309-403) -/

/-- One `{label, instruction}` item of the Phase A parse result. -/
structure ShotConfig where
  label : String
  instruction : String
deriving DecidableEq, Repr

/-- One element of the result of `generateStoryboardShots`. -/
structure StoryboardShot where
  label : String
  base64 : String
  instruction : String
deriving DecidableEq, Repr

/-- The fixed default shot set (geminiService.ts:375-381). -/
def defaultShots : List ShotConfig :=
  [ { label := "视觉 1", instruction := "Main hero shot, high quality, commercial lighting." },
    { label := "视觉 2", instruction := "Detail shot, close up, texture focus." },
    { label := "视觉 3", instruction := "Context usage shot, lifestyle vibe." },
    { label := "视觉 4", instruction := "Creative composition, artistic angle." } ]

/-- Phase A of `generateStoryboardShots` (geminiService.ts:344-381):
`parsed = none` models the try/catch path where the text call threw, the
response had no text, or `JSON.parse` threw (leaving `shotsConfig = []`);
`parsed = some l` models a successful parse to `l`. The fallback fires
exactly on `shotsConfig.length === 0`. -/
def phaseA (parsed : Option (List ShotConfig)) : List ShotConfig :=
  let shotsConfig := match parsed with
    | none => []
    | some l => l
  if shotsConfig.length = 0 then defaultShots else shotsConfig

/-- Whether a shot's `editSceneImage` call resolves (`.ok`) rather than
throws (`.error`), given the per-shot render oracle. -/
def renderSucceeds (render : ShotConfig → Except String String)
    (shot : ShotConfig) : Bool :=
  match render shot with
  | .ok _ => true
  | .error _ => false

/-- The per-shot async closure of Phase B (geminiService.ts:389-399):
on success, wrap the result with the shot's label and instruction; a thrown
error is caught and the closure resolves to `null` (`none`). -/
def renderShot (render : ShotConfig → Except String String)
    (shot : ShotConfig) : Option StoryboardShot :=
  match render shot with
  | .ok result => some { label := shot.label, base64 := result, instruction := shot.instruction }
  | .error _ => none

/-- Phase B of `generateStoryboardShots` (geminiService.ts:389-402):
`Promise.all` keeps the per-shot results in descriptor order, then
`results.filter((r) => r !== null)` drops the failed slots. -/
def phaseB (render : ShotConfig → Except String String)
    (shotsConfig : List ShotConfig) : List StoryboardShot :=
  (shotsConfig.map (renderShot render)).filterMap id

/-- `generateStoryboardShots` end to end: Phase A then Phase B. -/
def generateStoryboardShots (parsed : Option (List ShotConfig))
    (render : ShotConfig → Except String String) : List StoryboardShot :=
  phaseB render (phaseA parsed)

/-! ## Component-level history filters and grouping -/

/-- `currentHistoryImages` (StepVisualizer, the strict filter):
`historyImages.filter(i => i.conceptId === concept.id && i.mode === currentMode)`.
An item with `mode: undefined` (`none`) never equals a concrete mode. -/
def currentHistoryImages (historyImages : List ImageHistoryItem)
    (conceptId : String) (currentMode : AppMode) : List ImageHistoryItem :=
  historyImages.filter fun i =>
    decide (i.conceptId = conceptId) && decide (i.mode = some currentMode)

/-- `relevantImages` (StepProduction.tsx:40):
`historyImages.filter(img => img.conceptId === concept.id && img.mode === 'video')`. -/
def relevantImages (historyImages : List ImageHistoryItem)
    (conceptId : String) : List ImageHistoryItem :=
  historyImages.filter fun img =>
    decide (img.conceptId = conceptId) && decide (img.mode = some AppMode.video)

/-- The grouping key `v.productName + v.conceptTitle` used by the video
history display (StepProduction.tsx:269-270): plain string concatenation. -/
def videoGroupKey (v : VideoHistoryItem) : String :=
  v.productName ++ v.conceptTitle

/-- `Array.from(new Set(...))`: JavaScript `Set` iteration keeps first
insertion order, so deduplicate keeping each string's first occurrence. -/
def dedupKeysAux (seen : List String) : List String → List String
  | [] => []
  | k :: ks =>
      if k ∈ seen then dedupKeysAux seen ks
      else k :: dedupKeysAux (k :: seen) ks

/-- The list of group keys of the video history display
(StepProduction.tsx:269). -/
def videoGroupKeys (historyVideos : List VideoHistoryItem) : List String :=
  dedupKeysAux []
    ((historyVideos.filter fun v => decide (v.mode = some AppMode.video)).map videoGroupKey)

/-- `groupVids` for one key (StepProduction.tsx:270):
`historyVideos.filter(v => (v.productName + v.conceptTitle) === key && v.mode === 'video')`. -/
def videoGroup (historyVideos : List VideoHistoryItem) (key : String) :
    List VideoHistoryItem :=
  historyVideos.filter fun v =>
    decide (videoGroupKey v = key) && decide (v.mode = some AppMode.video)

/-- The full grouped video history display (StepProduction.tsx:269-294):
one `(key, groupVids)` entry per distinct key. -/
def videoGroups (historyVideos : List VideoHistoryItem) :
    List (String × List VideoHistoryItem) :=
  (videoGroupKeys historyVideos).map fun k => (k, videoGroup historyVideos k)

/-- The `withMeta` stamping in `handleGenerate` (StepIdeation):
`results.map((c, i) => ({...c, id: Date.now()-i, productName, creativeDirection,
createdAt, mode}))`; `now` models the `Date.now()` calls of that render pass. -/
def withMeta (now : Nat) (product : ProductInfo) (currentMode : AppMode)
    (results : List RawConcept) : List SceneConcept :=
  results.enum.map fun p =>
    { id := toString now ++ "-" ++ toString p.1
      title := p.2.title
      description := p.2.description
      script := p.2.script
      storyboard := p.2.storyboard
      visualPrompt := p.2.visualPrompt
      productName := product.name
      creativeDirection := product.creativeDirection
      createdAt := now
      mode := some currentMode }

/-! ## App root state (the unnamed App component) -/

/-- The core state of the App root component: product brief, mode-scoped
selections, active mode, the three session History collections, config and
library. -/
structure AppState where
  product : Option ProductInfo
  selectedConcept : Option SceneConcept
  generatedImage : Option String
  appMode : AppMode
  historyConcepts : List SceneConcept
  historyImages : List ImageHistoryItem
  historyVideos : List VideoHistoryItem
  appConfig : AppConfig
  isSettingsOpen : Bool
  isLibraryOpen : Bool
  libraryAssets : List LibraryAsset
deriving Repr

/-- `addHistoryConcept` (App): `setHistoryConcepts(prev => [...concepts, ...prev])`. -/
def addHistoryConcept (s : AppState) (concepts : List SceneConcept) : AppState :=
  { s with historyConcepts := concepts ++ s.historyConcepts }

/-- `addHistoryImage` (App): `setHistoryImages(prev => [img, ...prev])` and
`setGeneratedImage(img.base64)`. -/
def addHistoryImage (s : AppState) (img : ImageHistoryItem) : AppState :=
  { s with
    historyImages := img :: s.historyImages
    generatedImage := some img.base64 }

/-- `addHistoryVideo` (App): `setHistoryVideos(prev => [vid, ...prev])`. -/
def addHistoryVideo (s : AppState) (vid : VideoHistoryItem) : AppState :=
  { s with historyVideos := vid :: s.historyVideos }

/-- `handleModeChange` (App): set the mode and clear the mode-scoped
selections, keeping the product info. -/
def handleModeChange (s : AppState) (mode : AppMode) : AppState :=
  { s with
    appMode := mode
    selectedConcept := none
    generatedImage := none }

/-- `handleSaveConfig` (App): `setAppConfig(newConfig)`. -/
def handleSaveConfig (s : AppState) (newConfig : AppConfig) : AppState :=
  { s with appConfig := newConfig }

/-- `handleAddToLibrary` (App): prepend the new asset to `libraryAssets`
(the asset record construction from `(type, content, meta)` is inlined in
the op argument). -/
def handleAddToLibrary (s : AppState) (newAsset : LibraryAsset) : AppState :=
  { s with libraryAssets := newAsset :: s.libraryAssets }

/-- `onNext` of StepInput as wired in App: `setProduct(info)`. -/
def setProduct (s : AppState) (info : ProductInfo) : AppState :=
  { s with product := some info }

/-- `onSelect` of StepIdeation as wired in App:
`setSelectedConcept(concept); setGeneratedImage(null)`. -/
def selectConcept (s : AppState) (concept : SceneConcept) : AppState :=
  { s with selectedConcept := some concept, generatedImage := none }

/-- The state-changing operations the App root component can perform during
a session (every `setX` call site in the App component is one of these). -/
inductive AppOp where
  | saveConfig (cfg : AppConfig)
  | addToLibrary (a : LibraryAsset)
  | addConcepts (cs : List SceneConcept)
  | addImage (img : ImageHistoryItem)
  | addVideo (v : VideoHistoryItem)
  | modeChange (m : AppMode)
  | setProductOp (p : ProductInfo)
  | selectConceptOp (c : SceneConcept)
  | openSettings
  | closeSettings
  | openLibrary
  | closeLibrary

/-- One App-level state transition. -/
def applyOp (s : AppState) : AppOp → AppState
  | .saveConfig cfg => handleSaveConfig s cfg
  | .addToLibrary a => handleAddToLibrary s a
  | .addConcepts cs => addHistoryConcept s cs
  | .addImage img => addHistoryImage s img
  | .addVideo v => addHistoryVideo s v
  | .modeChange m => handleModeChange s m
  | .setProductOp p => setProduct s p
  | .selectConceptOp c => selectConcept s c
  | .openSettings => { s with isSettingsOpen := true }
  | .closeSettings => { s with isSettingsOpen := false }
  | .openLibrary => { s with isLibraryOpen := true }
  | .closeLibrary => { s with isLibraryOpen := false }

/-- A whole session: fold a sequence of operations over a starting state. -/
def applyOps (s : AppState) (ops : List AppOp) : AppState :=
  ops.foldl applyOp s

/-! ## Concrete sample inputs used to evaluate the definitions -/

/-- `DEFAULT_CONFIG` from src/types.ts. -/
def DEFAULT_CONFIG : AppConfig :=
  { textModel := "gemini-3-flash-preview"
    textKey := ""
    imageModel := "gemini-2.5-flash-image"
    imageKey := ""
    videoModel := "veo-3.1-fast-generate-preview"
    videoKey := "" }

/-- Sample shot descriptor 1. -/
def shotW1 : ShotConfig := { label := "s1", instruction := "i1" }

/-- Sample shot descriptor 2. -/
def shotW2 : ShotConfig := { label := "s2", instruction := "i2" }

/-- Sample shot descriptor 3. -/
def shotW3 : ShotConfig := { label := "s3", instruction := "i3" }

/-- Sample shot descriptor 4. -/
def shotW4 : ShotConfig := { label := "s4", instruction := "i4" }

/-- A sample 4-shot descriptor list. -/
def shotsW : List ShotConfig := [shotW1, shotW2, shotW3, shotW4]

/-- A sample render oracle under which exactly the call for shot `s2`
throws and every other call resolves. -/
def renderW : ShotConfig → Except String String :=
  fun s => if s.label = "s2" then .error "network error" else .ok "IMGBYTES"

/-- Sample parsed concept 1. -/
def rawW1 : RawConcept :=
  { title := "t1", description := "d1", script := "sc1"
    storyboard := "sb1", visualPrompt := "vp1" }

/-- Sample parsed concept 2. -/
def rawW2 : RawConcept :=
  { title := "t2", description := "d2", script := "sc2"
    storyboard := "sb2", visualPrompt := "vp2" }

/-- A sample `JSON.parse` outcome producing a 2-element concept list. -/
def parse2W : String → Option (List RawConcept) := fun _ => some [rawW1, rawW2]

/-- A sample product brief. -/
def productW : ProductInfo :=
  { name := "Compact Juicer", description := "portable juicer"
    creativeDirection := "情感共鸣", userImages := none }

/-- A sample initial App state (the component's `useState` initial values). -/
def stateW : AppState :=
  { product := none
    selectedConcept := none
    generatedImage := none
    appMode := AppMode.video
    historyConcepts := []
    historyImages := []
    historyVideos := []
    appConfig := DEFAULT_CONFIG
    isSettingsOpen := false
    isLibraryOpen := false
    libraryAssets := [] }

/-- A sample image history item tagged with concept id "c1" in video mode. -/
def imgW : ImageHistoryItem :=
  { id := "img1", base64 := "data:image/png;base64,AAAA", prompt := "p1"
    productName := "Compact Juicer", creativeDirection := "情感共鸣"
    conceptTitle := "t1", conceptId := "c1", createdAt := 3
    mode := some AppMode.video }

/-- A video whose product name is "ab" and concept title is "c". -/
def videoABthenC : VideoHistoryItem :=
  { id := "v1", uri := "u1", blobUrl := "b1", productName := "ab"
    creativeDirection := "d", conceptTitle := "c", createdAt := 0
    mode := some AppMode.video }

/-- A video whose product name is "a" and concept title is "bc": a distinct
`(productName, conceptTitle)` pair whose concatenated key collides with
`videoABthenC`'s. -/
def videoAthenBC : VideoHistoryItem :=
  { id := "v2", uri := "u2", blobUrl := "b2", productName := "a"
    creativeDirection := "d", conceptTitle := "bc", createdAt := 1
    mode := some AppMode.video }

/-! ## Helper lemmas -/

/-- The two halves of a filter partition a list's length. -/
theorem length_filter_add_length_filter_not {α : Type} (p : α → Bool) (l : List α) :
    (l.filter p).length + (l.filter (fun a => !p a)).length = l.length := by
  induction l with
  | nil => rfl
  | cons a l ih =>
      cases h : p a <;> simp [List.filter_cons, h] <;> omega

/-- Phase B keeps exactly the successful shots, labelled in descriptor order. -/
theorem phaseB_label_map (render : ShotConfig → Except String String)
    (shots : List ShotConfig) :
    (phaseB render shots).map StoryboardShot.label
      = (shots.filter (renderSucceeds render)).map ShotConfig.label := by
  induction shots with
  | nil => rfl
  | cons s ss ih =>
      simp only [phaseB] at ih ⊢
      cases h : render s <;>
        simp_all [renderShot, renderSucceeds, h, List.filterMap_cons, List.filter_cons,
          List.filterMap_map]

/-- The first-inline-data scan returns nothing exactly when no part has data. -/
theorem firstInlineData_eq_none (parts : List (Option String)) :
    firstInlineData parts = none ↔ ∀ p ∈ parts, p = none := by
  induction parts with
  | nil => simp [firstInlineData]
  | cons p ps ih =>
      simp only [firstInlineData] at ih ⊢
      cases p <;> simp [List.findSome?_cons, ih]

/-- Every single App operation only ever prepends to the three History
collections. -/
theorem applyOp_history_suffix (s : AppState) (op : AppOp) :
    (∃ pc, (applyOp s op).historyConcepts = pc ++ s.historyConcepts) ∧
    (∃ pim, (applyOp s op).historyImages = pim ++ s.historyImages) ∧
    (∃ pv, (applyOp s op).historyVideos = pv ++ s.historyVideos) := by
  cases op
  case addConcepts cs => exact ⟨⟨cs, rfl⟩, ⟨[], rfl⟩, ⟨[], rfl⟩⟩
  case addImage img => exact ⟨⟨[], rfl⟩, ⟨[img], rfl⟩, ⟨[], rfl⟩⟩
  case addVideo v => exact ⟨⟨[], rfl⟩, ⟨[], rfl⟩, ⟨[v], rfl⟩⟩
  all_goals exact ⟨⟨[], rfl⟩, ⟨[], rfl⟩, ⟨[], rfl⟩⟩

/-- Whole sessions only ever prepend to the three History collections. -/
theorem applyOps_history_suffix (ops : List AppOp) : ∀ s : AppState,
    (∃ pc, (applyOps s ops).historyConcepts = pc ++ s.historyConcepts) ∧
    (∃ pim, (applyOps s ops).historyImages = pim ++ s.historyImages) ∧
    (∃ pv, (applyOps s ops).historyVideos = pv ++ s.historyVideos) := by
  induction ops with
  | nil => intro s; exact ⟨⟨[], rfl⟩, ⟨[], rfl⟩, ⟨[], rfl⟩⟩
  | cons op ops ih =>
      intro s
      obtain ⟨⟨pc1, h1⟩, ⟨pim1, h2⟩, ⟨pv1, h3⟩⟩ := applyOp_history_suffix s op
      obtain ⟨⟨pc2, g1⟩, ⟨pim2, g2⟩, ⟨pv2, g3⟩⟩ := ih (applyOp s op)
      refine ⟨⟨pc2 ++ pc1, ?_⟩, ⟨pim2 ++ pim1, ?_⟩, ⟨pv2 ++ pv1, ?_⟩⟩
      · calc (applyOps s (op :: ops)).historyConcepts
            = (applyOps (applyOp s op) ops).historyConcepts := rfl
          _ = pc2 ++ (applyOp s op).historyConcepts := g1
          _ = pc2 ++ (pc1 ++ s.historyConcepts) := by rw [h1]
          _ = (pc2 ++ pc1) ++ s.historyConcepts := (List.append_assoc pc2 pc1 _).symm
      · calc (applyOps s (op :: ops)).historyImages
            = (applyOps (applyOp s op) ops).historyImages := rfl
          _ = pim2 ++ (applyOp s op).historyImages := g2
          _ = pim2 ++ (pim1 ++ s.historyImages) := by rw [h2]
          _ = (pim2 ++ pim1) ++ s.historyImages := (List.append_assoc pim2 pim1 _).symm
      · calc (applyOps s (op :: ops)).historyVideos
            = (applyOps (applyOp s op) ops).historyVideos := rfl
          _ = pv2 ++ (applyOp s op).historyVideos := g3
          _ = pv2 ++ (pv1 ++ s.historyVideos) := by rw [h3]
          _ = (pv2 ++ pv1) ++ s.historyVideos := (List.append_assoc pv2 pv1 _).symm

/-! ## Claims -/

/-- Claim C1, counterexample: a parse outcome of exactly 3 items is handed
to Phase B unchanged — the descriptor list has length 3 and is not the
default set, refuting "never has length 0, 3, or 5" and "not a list of
exactly 4 items falls back to the defaults". -/
theorem phaseA_claim_cex :
    (phaseA (some [shotW1, shotW2, shotW3])).length = 3 ∧
    phaseA (some [shotW1, shotW2, shotW3]) ≠ defaultShots := by
  constructor
  · rfl
  · decide

/-- Claim C1 (amended): Phase A of `generateStoryboardShots` falls back to
the fixed default set of 4 generic shots exactly when the text-parse call
fails or yields an empty list; the descriptor list handed to Phase B is
therefore never empty, but any non-empty parse result — whatever its
length — is passed through unchanged. -/
theorem phaseA_fallback_amended (parsed : Option (List ShotConfig))
    (l : List ShotConfig) (hl : l ≠ []) :
    phaseA parsed ≠ [] ∧
    phaseA none = defaultShots ∧
    phaseA (some []) = defaultShots ∧
    phaseA (some l) = l ∧
    defaultShots.length = 4 := by
  refine ⟨?_, rfl, rfl, ?_, rfl⟩
  · cases parsed with
    | none => simp [phaseA, defaultShots]
    | some l' =>
        cases l' with
        | nil => simp [phaseA, defaultShots]
        | cons a as => simp [phaseA]
  · simp [phaseA, List.length_eq_zero, hl]

/-- Claim C1, witness: the amended theorem evaluated at a failed parse and
at a 1-item parse. -/
theorem phaseA_fallback_amended_witness :
    phaseA (some ([] : List ShotConfig)) = defaultShots ∧
    phaseA (some [shotW1]) = [shotW1] :=
  ⟨(phaseA_fallback_amended (some []) [shotW1] (by simp)).2.2.1,
   (phaseA_fallback_amended (some []) [shotW1] (by simp)).2.2.2.1⟩

/-- Claim C2: in Phase B each per-shot render is independent — a failed
shot is dropped, the function still returns, and the surviving shots keep
the original descriptor (label) order; when exactly 1 of 4 renders throws,
the result has exactly 3 shots and excludes the failed shot's label. -/
theorem phaseB_partial_failure (render : ShotConfig → Except String String)
    (shots : List ShotConfig) (s0 : ShotConfig)
    (hfail : shots.filter (fun s => !renderSucceeds render s) = [s0])
    (hlen : shots.length = 4)
    (hlabel : ∀ s ∈ shots, renderSucceeds render s = true → s.label ≠ s0.label) :
    (phaseB render shots).length = 3 ∧
    s0.label ∉ (phaseB render shots).map StoryboardShot.label ∧
    (phaseB render shots).map StoryboardShot.label
      = (shots.filter (renderSucceeds render)).map ShotConfig.label := by
  have hmap := phaseB_label_map render shots
  have hpart := length_filter_add_length_filter_not (renderSucceeds render) shots
  have hlenB : (phaseB render shots).length
      = (shots.filter (renderSucceeds render)).length := by
    have := congrArg List.length hmap
    simpa using this
  have hfl : (shots.filter (fun s => !renderSucceeds render s)).length = 1 := by
    rw [hfail]; rfl
  refine ⟨?_, ?_, hmap⟩
  · rw [hlenB]; omega
  · intro hmem
    rw [hmap] at hmem
    simp only [List.mem_map] at hmem
    obtain ⟨s, hs, hlabeq⟩ := hmem
    rw [List.mem_filter] at hs
    exact hlabel s hs.1 hs.2 hlabeq

/-- Claim C2, witness: the theorem evaluated at the concrete 4-shot list
where exactly the render of shot `s2` throws. -/
theorem phaseB_partial_failure_witness :
    (phaseB renderW shotsW).length = 3 ∧
    shotW2.label ∉ (phaseB renderW shotsW).map StoryboardShot.label :=
  ⟨(phaseB_partial_failure renderW shotsW shotW2 (by decide) rfl (by decide)).1,
   (phaseB_partial_failure renderW shotsW shotW2 (by decide) rfl (by decide)).2.1⟩

/-- Claim C3: the strict `(conceptId, mode)` filters of the Visualizer
(`currentHistoryImages`) and the Production view (`relevantImages`, whose
active mode is `video`) include exactly the history items whose `conceptId`
equals the active concept's id and whose `mode` equals the active mode —
never an item whose `conceptId` or `mode` differs. -/
theorem image_filter_strict (a : ImageHistoryItem)
    (historyImages : List ImageHistoryItem) (conceptId : String) (m : AppMode) :
    (a ∈ currentHistoryImages historyImages conceptId m
      ↔ a ∈ historyImages ∧ a.conceptId = conceptId ∧ a.mode = some m) ∧
    (a ∈ relevantImages historyImages conceptId
      ↔ a ∈ historyImages ∧ a.conceptId = conceptId ∧ a.mode = some AppMode.video) := by
  constructor <;>
    simp [currentHistoryImages, relevantImages, List.mem_filter, and_assoc]

/-- Claim C3, witness: the filter theorem evaluated at a concrete matching
item. -/
theorem image_filter_strict_witness :
    imgW ∈ currentHistoryImages [imgW] "c1" AppMode.video :=
  (image_filter_strict imgW [imgW] "c1" AppMode.video).1.mpr
    ⟨by simp, rfl, rfl⟩

/-- Claim C4: the video history display's group key is the plain string
concatenation `productName ++ conceptTitle`, so the two distinct pairs
`("ab", "c")` and `("a", "bc")` collide on the key `"abc"` and the two
videos are merged into a single display group, although their
`productName` (and `conceptTitle`) fields differ. -/
theorem videoGroups_concat_collision :
    videoGroups [videoABthenC, videoAthenBC]
      = [("abc", [videoABthenC, videoAthenBC])] ∧
    videoABthenC.productName ≠ videoAthenBC.productName ∧
    videoABthenC.conceptTitle ≠ videoAthenBC.conceptTitle := by
  refine ⟨?_, by decide, by decide⟩
  decide

/-- Claim C5, counterexample: a provider response parsing to a 2-element
concept list makes `generateConcepts` succeed with 2 concepts, refuting
"a successful concept-generation run produces exactly 3 concepts". -/
theorem generateConcepts_count_cex :
    generateConcepts (some "resp") parse2W = .ok [rawW1, rawW2] ∧
    ([rawW1, rawW2].length = 3 → False) := by
  exact ⟨rfl, by decide⟩

/-- Claim C5 (amended): a successful concept-generation run returns exactly
the concept list parsed from the provider's response (the prompt requests 3
but the code does not enforce the count), and the caller stamps every
returned concept with a synthetic id `now-i`, the brief's product name and
creative direction, the current mode and the creation timestamp before
prepending the batch to History. -/
theorem generateConcepts_stamping_amended (text : String)
    (parse : String → Option (List RawConcept)) (cs : List RawConcept)
    (now : Nat) (product : ProductInfo) (mode : AppMode) (s : AppState)
    (htext : text ≠ "") (hparse : parse text = some cs) :
    generateConcepts (some text) parse = .ok cs ∧
    (withMeta now product mode cs).length = cs.length ∧
    (∀ c ∈ withMeta now product mode cs,
        c.productName = product.name ∧
        c.creativeDirection = product.creativeDirection ∧
        c.mode = some mode ∧
        c.createdAt = now) ∧
    (withMeta now product mode cs).map SceneConcept.id
      = (List.range cs.length).map (fun i => toString now ++ "-" ++ toString i) ∧
    (addHistoryConcept s (withMeta now product mode cs)).historyConcepts
      = withMeta now product mode cs ++ s.historyConcepts := by
  refine ⟨?_, ?_, ?_, ?_, rfl⟩
  · simp [generateConcepts, htext, hparse]
  · simp [withMeta]
  · intro c hc
    simp only [withMeta, List.mem_map] at hc
    obtain ⟨p, hp, rfl⟩ := hc
    exact ⟨rfl, rfl, rfl, rfl⟩
  · have h1 : (withMeta now product mode cs).map SceneConcept.id
        = cs.enum.map ((fun i => toString now ++ "-" ++ toString i) ∘ Prod.fst) := by
      simp only [withMeta, List.map_map]
      rfl
    rw [h1, ← List.map_map]
    simp

/-- Claim C5, witness: the amended theorem evaluated on the sample
2-concept provider response. -/
theorem generateConcepts_stamping_amended_witness :
    generateConcepts (some "resp") parse2W = .ok [rawW1, rawW2] ∧
    (withMeta 7 productW AppMode.video [rawW1, rawW2]).map SceneConcept.id
      = (List.range 2).map (fun i => toString 7 ++ "-" ++ toString i) :=
  ⟨(generateConcepts_stamping_amended "resp" parse2W [rawW1, rawW2] 7 productW
      AppMode.video stateW (by decide) rfl).1,
   (generateConcepts_stamping_amended "resp" parse2W [rawW1, rawW2] 7 productW
      AppMode.video stateW (by decide) rfl).2.2.2.1⟩

/-- Claim C6: during a session the three History collections are
append-only with insertion at the front — each add operation prepends its
batch, every single operation and every operation sequence leaves the old
collection as an untouched suffix of the new one, and the sizes are
non-decreasing. -/
theorem history_append_only (s : AppState) (op : AppOp) (ops : List AppOp) :
    (∀ cs, (addHistoryConcept s cs).historyConcepts = cs ++ s.historyConcepts) ∧
    (∀ img, (addHistoryImage s img).historyImages = img :: s.historyImages) ∧
    (∀ vid, (addHistoryVideo s vid).historyVideos = vid :: s.historyVideos) ∧
    (∃ pc, (applyOp s op).historyConcepts = pc ++ s.historyConcepts) ∧
    (∃ pim, (applyOp s op).historyImages = pim ++ s.historyImages) ∧
    (∃ pv, (applyOp s op).historyVideos = pv ++ s.historyVideos) ∧
    (∃ qc, (applyOps s ops).historyConcepts = qc ++ s.historyConcepts) ∧
    (∃ qim, (applyOps s ops).historyImages = qim ++ s.historyImages) ∧
    (∃ qv, (applyOps s ops).historyVideos = qv ++ s.historyVideos) ∧
    s.historyConcepts.length ≤ (applyOps s ops).historyConcepts.length ∧
    s.historyImages.length ≤ (applyOps s ops).historyImages.length ∧
    s.historyVideos.length ≤ (applyOps s ops).historyVideos.length := by
  obtain ⟨h1, h2, h3⟩ := applyOp_history_suffix s op
  obtain ⟨⟨qc, g1⟩, ⟨qim, g2⟩, ⟨qv, g3⟩⟩ := applyOps_history_suffix ops s
  refine ⟨fun _ => rfl, fun _ => rfl, fun _ => rfl, h1, h2, h3,
    ⟨qc, g1⟩, ⟨qim, g2⟩, ⟨qv, g3⟩, ?_, ?_, ?_⟩
  · rw [g1]; simp
  · rw [g2]; simp
  · rw [g3]; simp

/-- Claim C6, witness: the append-only theorem evaluated on a concrete
image append during a one-operation session. -/
theorem history_append_only_witness :
    (addHistoryImage stateW imgW).historyImages = imgW :: stateW.historyImages :=
  (history_append_only stateW (AppOp.addImage imgW) [AppOp.addImage imgW]).2.1 imgW

/-- Claim C7: `handleModeChange` sets the mode, clears the selected concept
and the active generated image, and changes nothing else of the core state:
the product brief, the three History collections (in particular their
sizes), the config and the library are untouched. -/
theorem handleModeChange_frame (s : AppState) (m : AppMode) :
    (handleModeChange s m).appMode = m ∧
    (handleModeChange s m).selectedConcept = none ∧
    (handleModeChange s m).generatedImage = none ∧
    (handleModeChange s m).product = s.product ∧
    (handleModeChange s m).historyConcepts = s.historyConcepts ∧
    (handleModeChange s m).historyImages = s.historyImages ∧
    (handleModeChange s m).historyVideos = s.historyVideos ∧
    (handleModeChange s m).appConfig = s.appConfig ∧
    (handleModeChange s m).libraryAssets = s.libraryAssets ∧
    (handleModeChange s m).historyConcepts.length = s.historyConcepts.length ∧
    (handleModeChange s m).historyImages.length = s.historyImages.length ∧
    (handleModeChange s m).historyVideos.length = s.historyVideos.length :=
  ⟨rfl, rfl, rfl, rfl, rfl, rfl, rfl, rfl, rfl, rfl, rfl, rfl⟩

/-- Claim C7, witness: the frame theorem evaluated at the initial state and
a switch to image mode. -/
theorem handleModeChange_frame_witness :
    (handleModeChange stateW AppMode.image).selectedConcept = none ∧
    (handleModeChange stateW AppMode.image).historyImages = stateW.historyImages :=
  ⟨(handleModeChange_frame stateW AppMode.image).2.1,
   (handleModeChange_frame stateW AppMode.image).2.2.2.2.2.1⟩

/-- Claim C8: `generateStoryVideo` submits at most 3 reference images: the
payload is built from exactly the first `min 3 n` input images, and a
4-image input yields a 3-entry payload. -/
theorem generateStoryVideo_truncates_refs (referenceImages : List String)
    (a b c d : String) :
    (referenceImagesPayload referenceImages).length = min 3 referenceImages.length ∧
    (referenceImagesPayload referenceImages).length ≤ 3 ∧
    referenceImagesPayload referenceImages
      = (referenceImages.take 3).map stripDataHeader ∧
    (referenceImagesPayload [a, b, c, d]).length = 3 := by
  refine ⟨?_, ?_, rfl, rfl⟩
  · simp [referenceImagesPayload, refsToUse, List.length_take]
  · simp [referenceImagesPayload, refsToUse, List.length_take]

/-- Claim C8, witness: the truncation theorem evaluated on a concrete
4-image reference list. -/
theorem generateStoryVideo_truncates_refs_witness :
    (referenceImagesPayload ["r1", "r2", "r3", "r4"]).length = 3 :=
  (generateStoryVideo_truncates_refs ["r1", "r2", "r3", "r4"]
    "r1" "r2" "r3" "r4").2.2.2

/-- Claim C9: each generation operation fails hard exactly when the
provider call returns no usable payload: `generateConcepts` errors with
"No concepts generated" exactly on an absent/empty response text,
`generateSceneImage` and `editSceneImage` error exactly when no response
part contains inline image data, and `generateStoryVideo` errors exactly
when the completed operation carries no video URI; none of them retries. -/
theorem empty_result_fatal :
    (∀ (text : Option String) (parse : String → Option (List RawConcept)),
        generateConcepts text parse = .error "No concepts generated"
          ↔ (text = none ∨ text = some "")) ∧
    (∀ parts : List (Option String),
        generateSceneImage parts = .error "No image generated"
          ↔ ∀ p ∈ parts, p = none) ∧
    (∀ parts : List (Option String),
        editSceneImage parts = .error "Image editing failed"
          ↔ ∀ p ∈ parts, p = none) ∧
    (∀ videoUri : Option String,
        generateStoryVideo videoUri = .error "Video generation failed"
          ↔ (videoUri = none ∨ videoUri = some "")) := by
  refine ⟨?_, ?_, ?_, ?_⟩
  · intro text parse
    cases text with
    | none => simp [generateConcepts]
    | some t =>
        by_cases ht : t = ""
        · subst ht; simp [generateConcepts]
        · cases hp : parse t <;> simp [generateConcepts, ht, hp]
  · intro parts
    cases h : firstInlineData parts <;>
      simp [generateSceneImage, h, ← firstInlineData_eq_none]
  · intro parts
    cases h : firstInlineData parts <;>
      simp [editSceneImage, h, ← firstInlineData_eq_none]
  · intro videoUri
    cases videoUri with
    | none => simp [generateStoryVideo]
    | some u =>
        by_cases hu : u = ""
        · subst hu; simp [generateStoryVideo]
        · simp [generateStoryVideo, hu]

/-- Claim C10: `addHistoryImage` is not a pure append at the App level — it
prepends the item to the image History and additionally sets the active
generated image to that item's payload, so after every image append the
active image is the payload of the most recently appended artifact. -/
theorem addHistoryImage_sets_active (s : AppState) (img : ImageHistoryItem) :
    (addHistoryImage s img).historyImages = img :: s.historyImages ∧
    (addHistoryImage s img).generatedImage = some img.base64 ∧
    (addHistoryImage s img).generatedImage
      = ((addHistoryImage s img).historyImages.head?).map ImageHistoryItem.base64 :=
  ⟨rfl, rfl, rfl⟩

/-- Claim C10, witness: the active-image theorem evaluated at the initial
state and the sample image item. -/
theorem addHistoryImage_sets_active_witness :
    (addHistoryImage stateW imgW).generatedImage = some imgW.base64 :=
  (addHistoryImage_sets_active stateW imgW).2.1

/-- Claim C9, witness: the empty-result theorem evaluated at concrete
provider outcomes. -/
theorem empty_result_fatal_witness :
    generateConcepts none parse2W = .error "No concepts generated" ∧
    generateSceneImage [none, none] = .error "No image generated" :=
  ⟨(empty_result_fatal.1 none parse2W).mpr (Or.inl rfl),
   (empty_result_fatal.2.1 [none, none]).mpr (by simp)⟩

end OmniSpark
